import Mathlib

/-!
Shallow embedding of the MapaDeEquipamentos repository
(`backEnd/src/validators.ts`, `backEnd/src/db.ts`, `backEnd/src/routes.ts`,
`frontEnd/src/components/Topology/TopologyCanvas.tsx`).

Modelling conventions:
* uuid identifiers are opaque store-generated strings; they are modelled by
  `Uuid := Nat`, and a JSON string in uuid format is the payload constructor
  `JVal.jid` (the `z.string().uuid()` check accepts exactly those values).
* JSON numbers are modelled by `Int` (none of the verified properties
  depends on fractional values).
* The database timestamp `now()` and `gen_random_uuid()` are modelled by a
  monotone counter `Store.clock`, used both as fresh id and as `created_at`.
* `ORDER BY created_at ASC` is modelled by a stable insertion sort on the
  `created_at` field.
* PostgreSQL unique-index semantics: two rows collide only when every indexed
  column is non-NULL and pairwise equal (default NULLS DISTINCT behaviour);
  `sameHandle` below reflects this for the nullable handle columns.
-/

namespace MapaEquip

abbrev Uuid := Nat

/-- A JSON value as it can occur in the (flat) request payloads of this API.
`jid` stands for a JSON string in uuid format (see module docstring). -/
inductive JVal where
  | jstr (s : String)
  | jnum (n : Int)
  | jid (u : Uuid)
  | jbool (b : Bool)
  | jnull
deriving DecidableEq

/-- A JSON object payload: association list of fields. -/
abbrev Payload := List (String × JVal)

/-- `type` enum of the `devices` table (`CHECK (type IN (...))`). -/
inductive DeviceType where
  | hub | switch | router | ap | server
deriving DecidableEq

/-- `status` enum of both tables (`CHECK (status IN ('up','warn','down'))`). -/
inductive Status where
  | up | warn | down
deriving DecidableEq

/-- A row of the `devices` table (db.ts `ensureSchema`). -/
structure DeviceRow where
  id : Uuid
  name : String
  dtype : DeviceType
  ip : Option String
  status : Status
  x : Int
  y : Int
  created_at : Nat
deriving DecidableEq

/-- A row of the `links` table (db.ts `ensureSchema`). -/
structure LinkRow where
  id : Uuid
  from_id : Uuid
  to_id : Uuid
  status : Status
  label : Option String
  from_handle : Option String
  to_handle : Option String
  created_at : Nat
deriving DecidableEq

/-- The database state: the two tables plus the fresh id / timestamp counter. -/
structure Store where
  devices : List DeviceRow
  links : List LinkRow
  clock : Nat
deriving DecidableEq

/-- First binding of a key in a JSON object (JSON object field access). -/
def getField : Payload → String → Option JVal
  | [], _ => none
  | (k, v) :: rest, key => if k = key then some v else getField rest key

/-- `z.string()`: accepts exactly JSON strings. -/
def asStr : JVal → Option String
  | .jstr s => some s
  | _ => none

/-- `z.string().min(2)`: a JSON string of length at least 2. -/
def strMin2V : JVal → Option String
  | .jstr s => if 2 ≤ s.length then some s else none
  | _ => none

/-- `z.number()`: accepts exactly JSON numbers. -/
def asNum : JVal → Option Int
  | .jnum n => some n
  | _ => none

/-- `z.string().uuid()`: accepts exactly strings in uuid format. -/
def asId : JVal → Option Uuid
  | .jid u => some u
  | _ => none

/-- `z.enum(["hub","switch","router","ap","server"])`. -/
def asType : JVal → Option DeviceType
  | .jstr "hub" => some .hub
  | .jstr "switch" => some .switch
  | .jstr "router" => some .router
  | .jstr "ap" => some .ap
  | .jstr "server" => some .server
  | _ => none

/-- `z.enum(["up","warn","down"])`. -/
def asStatus : JVal → Option Status
  | .jstr "up" => some .up
  | .jstr "warn" => some .warn
  | .jstr "down" => some .down
  | _ => none

/-- A required zod field: the key must be present and the value must check.
Unknown keys of the object are never inspected (zod strips them). -/
def reqField (f : JVal → Option α) (p : Payload) (k : String) : Option α :=
  (getField p k).bind f

/-- An `.optional()` zod field: an absent key parses to `none`; a present key
must type-check (in particular `null` is rejected: `.optional()` only admits
`undefined`, which does not exist in JSON payloads). -/
def optField (f : JVal → Option α) (p : Payload) (k : String) : Option (Option α) :=
  match getField p k with
  | none => some none
  | some v => (f v).map some

/-- Parsed output of `deviceCreateSchema`. -/
structure DeviceCreateData where
  name : String
  dtype : DeviceType
  ip : Option String
  status : Option Status
  x : Option Int
  y : Option Int
deriving DecidableEq

/-- `deviceCreateSchema.safeParse` (validators.ts). -/
def parseDeviceCreate (p : Payload) : Option DeviceCreateData := do
  let name ← reqField strMin2V p "name"
  let ty ← reqField asType p "type"
  let ip ← optField asStr p "ip"
  let st ← optField asStatus p "status"
  let x ← optField asNum p "x"
  let y ← optField asNum p "y"
  pure ⟨name, ty, ip, st, x, y⟩

/-- Parsed output of `deviceUpdateSchema = deviceCreateSchema.partial()`:
every field optional, `some` marks the fields present in the payload. -/
structure DeviceUpdateData where
  name : Option String
  dtype : Option DeviceType
  ip : Option String
  status : Option Status
  x : Option Int
  y : Option Int
deriving DecidableEq

/-- `deviceUpdateSchema.safeParse` (validators.ts). -/
def parseDeviceUpdate (p : Payload) : Option DeviceUpdateData := do
  let name ← optField strMin2V p "name"
  let ty ← optField asType p "type"
  let ip ← optField asStr p "ip"
  let st ← optField asStatus p "status"
  let x ← optField asNum p "x"
  let y ← optField asNum p "y"
  pure ⟨name, ty, ip, st, x, y⟩

/-- `Object.entries(fields).length === 0` for a parsed device update. -/
def DeviceUpdateData.isEmpty (u : DeviceUpdateData) : Bool :=
  u.name.isNone && u.dtype.isNone && u.ip.isNone && u.status.isNone &&
  u.x.isNone && u.y.isNone

/-- `devicePositionSchema.safeParse` (validators.ts): `x` and `y` required as
numbers.  The schema is a plain `z.object` (not `.strict()`), so unknown keys
are stripped, not rejected. -/
def parseDevicePosition (p : Payload) : Option (Int × Int) := do
  let x ← reqField asNum p "x"
  let y ← reqField asNum p "y"
  pure (x, y)

/-- Parsed output of `linkCreateSchema`. -/
structure LinkCreateData where
  fromId : Uuid
  toId : Uuid
  status : Option Status
  label : Option String
  fromHandle : Option String
  toHandle : Option String
deriving DecidableEq

/-- `linkCreateSchema.safeParse` (validators.ts). -/
def parseLinkCreate (p : Payload) : Option LinkCreateData := do
  let f ← reqField asId p "fromId"
  let t ← reqField asId p "toId"
  let st ← optField asStatus p "status"
  let lbl ← optField asStr p "label"
  let fh ← optField asStr p "fromHandle"
  let th ← optField asStr p "toHandle"
  pure ⟨f, t, st, lbl, fh, th⟩

/-- Parsed output of `linkUpdateSchema`. -/
structure LinkUpdateData where
  status : Option Status
  label : Option String
  fromHandle : Option String
  toHandle : Option String
deriving DecidableEq

/-- `linkUpdateSchema.safeParse` (validators.ts). -/
def parseLinkUpdate (p : Payload) : Option LinkUpdateData := do
  let st ← optField asStatus p "status"
  let lbl ← optField asStr p "label"
  let fh ← optField asStr p "fromHandle"
  let th ← optField asStr p "toHandle"
  pure ⟨st, lbl, fh, th⟩

/-- `Object.entries(fields).length === 0` for a parsed link update. -/
def LinkUpdateData.isEmpty (u : LinkUpdateData) : Bool :=
  u.status.isNone && u.label.isNone && u.fromHandle.isNone && u.toHandle.isNone

/-- `SELECT ... WHERE id=$1` row lookup on `devices`. -/
def findDevice (s : Store) (i : Uuid) : Option DeviceRow :=
  s.devices.find? (fun d => d.id == i)

/-- `SELECT ... WHERE id=$1` row lookup on `links`. -/
def findLink (s : Store) (i : Uuid) : Option LinkRow :=
  s.links.find? (fun l => l.id == i)

/-- Does a device with this id exist (foreign-key check target)? -/
def deviceExists (s : Store) (i : Uuid) : Bool :=
  s.devices.any (fun d => d.id == i)

/-- NULL-aware equality used by the unique index `links_unique` on
`(from_id,to_id,from_handle,to_handle)`: in PostgreSQL two index entries
collide on a nullable column only when both values are non-NULL and equal
(NULLS DISTINCT, the default). -/
def sameHandle : Option String → Option String → Bool
  | some a, some b => a == b
  | _, _ => false

/-- Does inserting `d` violate the unique index against existing row `l`? -/
def tupleConflict (l : LinkRow) (d : LinkCreateData) : Bool :=
  l.from_id == d.fromId && l.to_id == d.toId &&
  sameHandle l.from_handle d.fromHandle && sameHandle l.to_handle d.toHandle

/-- `POST /devices` (routes.ts): validate, then
`INSERT INTO devices (name,type,ip,status,x,y) VALUES (..., COALESCE(status,'up'),
COALESCE(x,0), COALESCE(y,0)) RETURNING *`.
Returns (http status, returned row, resulting store). -/
def postDevice (s : Store) (p : Payload) : Nat × Option DeviceRow × Store :=
  match parseDeviceCreate p with
  | none => (400, none, s)
  | some d =>
    let row : DeviceRow :=
      { id := s.clock, name := d.name, dtype := d.dtype, ip := d.ip,
        status := d.status.getD Status.up, x := d.x.getD 0, y := d.y.getD 0,
        created_at := s.clock }
    (201, some row,
      { s with devices := s.devices ++ [row], clock := s.clock + 1 })

/-- Apply a parsed partial device update to a row: exactly the supplied
fields change; `id` and `created_at` are not in the allow-list. -/
def applyDeviceUpdate (u : DeviceUpdateData) (d : DeviceRow) : DeviceRow :=
  { d with
    name := u.name.getD d.name
    dtype := u.dtype.getD d.dtype
    ip := match u.ip with | some v => some v | none => d.ip
    status := u.status.getD d.status
    x := u.x.getD d.x
    y := u.y.getD d.y }

/-- `PATCH /devices/:id` (routes.ts): validate; reject an empty recognised
field set; dynamic `UPDATE devices SET <present fields> WHERE id=$1
RETURNING *`; 404 when no row matches. -/
def patchDevice (s : Store) (i : Uuid) (p : Payload) :
    Nat × Option DeviceRow × Store :=
  match parseDeviceUpdate p with
  | none => (400, none, s)
  | some u =>
    if u.isEmpty then (400, none, s)
    else
      match findDevice s i with
      | none => (404, none, s)
      | some d =>
        (200, some (applyDeviceUpdate u d),
         { s with devices :=
             s.devices.map fun d0 => if d0.id = i then applyDeviceUpdate u d0 else d0 })

/-- `PATCH /devices/:id/position` (routes.ts):
`UPDATE devices SET x=$2, y=$3 WHERE id=$1 RETURNING *`. -/
def patchPosition (s : Store) (i : Uuid) (p : Payload) :
    Nat × Option DeviceRow × Store :=
  match parseDevicePosition p with
  | none => (400, none, s)
  | some q =>
    match findDevice s i with
    | none => (404, none, s)
    | some d =>
      (200, some { d with x := q.1, y := q.2 },
       { s with devices :=
           s.devices.map fun d0 => if d0.id = i then { d0 with x := q.1, y := q.2 } else d0 })

/-- `DELETE /devices/:id` (routes.ts): `DELETE FROM devices WHERE id=$1`;
the `ON DELETE CASCADE` foreign keys of `links` remove every link whose
`from_id` or `to_id` is the deleted device. -/
def deleteDevice (s : Store) (i : Uuid) : Nat × Store :=
  if s.devices.any (fun d => d.id == i) then
    (204, { s with
      devices := s.devices.filter (fun d => !(d.id == i)),
      links := s.links.filter (fun l => !(l.from_id == i || l.to_id == i)) })
  else (404, s)

/-- `POST /links` (routes.ts): validate, insert with
`COALESCE(status,'up')`; a unique-index violation (code 23505) becomes 409,
a foreign-key violation (code 23503) becomes 400. -/
def postLink (s : Store) (p : Payload) : Nat × Option LinkRow × Store :=
  match parseLinkCreate p with
  | none => (400, none, s)
  | some d =>
    if s.links.any (fun l => tupleConflict l d) then (409, none, s)
    else if !(deviceExists s d.fromId && deviceExists s d.toId) then (400, none, s)
    else
      let row : LinkRow :=
        { id := s.clock, from_id := d.fromId, to_id := d.toId,
          status := d.status.getD Status.up, label := d.label,
          from_handle := d.fromHandle, to_handle := d.toHandle,
          created_at := s.clock }
      (201, some row, { s with links := s.links ++ [row], clock := s.clock + 1 })

/-- Apply a parsed partial link update to a row (`from_id`, `to_id`, `id`,
`created_at` are not in the allow-list). -/
def applyLinkUpdate (u : LinkUpdateData) (l : LinkRow) : LinkRow :=
  { l with
    status := u.status.getD l.status
    label := match u.label with | some v => some v | none => l.label
    from_handle := match u.fromHandle with | some v => some v | none => l.from_handle
    to_handle := match u.toHandle with | some v => some v | none => l.to_handle }

/-- `PATCH /links/:id` (routes.ts). -/
def patchLink (s : Store) (i : Uuid) (p : Payload) :
    Nat × Option LinkRow × Store :=
  match parseLinkUpdate p with
  | none => (400, none, s)
  | some u =>
    if u.isEmpty then (400, none, s)
    else
      match findLink s i with
      | none => (404, none, s)
      | some l =>
        (200, some (applyLinkUpdate u l),
         { s with links :=
             s.links.map fun l0 => if l0.id = i then applyLinkUpdate u l0 else l0 })

/-- `DELETE /links/:id` (routes.ts). -/
def deleteLink (s : Store) (i : Uuid) : Nat × Store :=
  if s.links.any (fun l => l.id == i) then
    (204, { s with links := s.links.filter (fun l => !(l.id == i)) })
  else (404, s)

/-- `ORDER BY created_at ASC` on devices. -/
def devLE (a b : DeviceRow) : Prop := a.created_at ≤ b.created_at

/-- `ORDER BY created_at ASC` on links. -/
def linkLE (a b : LinkRow) : Prop := a.created_at ≤ b.created_at

instance : DecidableRel devLE := fun a b => Nat.decLe a.created_at b.created_at

instance : DecidableRel linkLE := fun a b => Nat.decLe a.created_at b.created_at

instance : IsTotal DeviceRow devLE := ⟨fun a b => Nat.le_total a.created_at b.created_at⟩

instance : IsTrans DeviceRow devLE := ⟨fun _ _ _ => Nat.le_trans⟩

instance : IsTotal LinkRow linkLE := ⟨fun a b => Nat.le_total a.created_at b.created_at⟩

instance : IsTrans LinkRow linkLE := ⟨fun _ _ _ => Nat.le_trans⟩

/-- `SELECT ... FROM devices ORDER BY created_at ASC`. -/
def listDevices (s : Store) : List DeviceRow := List.insertionSort devLE s.devices

/-- `SELECT ... FROM links ORDER BY created_at ASC`. -/
def listLinks (s : Store) : List LinkRow := List.insertionSort linkLE s.links

/-- The `data` attributes of a projected node (GET /topology). -/
structure NodeData where
  name : String
  dtype : DeviceType
  ip : Option String
  status : Status
deriving DecidableEq

/-- A node of the GET /topology response (React Flow shape). -/
structure TopoNode where
  id : Uuid
  x : Int
  y : Int
  data : NodeData
deriving DecidableEq

/-- An edge of the GET /topology response (React Flow shape). -/
structure TopoEdge where
  id : Uuid
  source : Uuid
  target : Uuid
  label : Option String
  status : Status
  sourceHandle : Option String
  targetHandle : Option String
deriving DecidableEq

/-- Device row to projected node (routes.ts GET /topology, `nodes` map). -/
def toNode (d : DeviceRow) : TopoNode :=
  { id := d.id, x := d.x, y := d.y,
    data := { name := d.name, dtype := d.dtype, ip := d.ip, status := d.status } }

/-- Link row to projected edge (routes.ts GET /topology, `edges` map). -/
def toEdge (l : LinkRow) : TopoEdge :=
  { id := l.id, source := l.from_id, target := l.to_id, label := l.label,
    status := l.status, sourceHandle := l.from_handle, targetHandle := l.to_handle }

/-- Shape of the GET /topology response. -/
structure Topology where
  nodes : List TopoNode
  edges : List TopoEdge
deriving DecidableEq

/-- `GET /topology` (routes.ts): both listings in creation order, mapped to
the graph view. -/
def getTopology (s : Store) : Topology :=
  { nodes := (listDevices s).map toNode, edges := (listLinks s).map toEdge }

/-- One write request against the API; used to state store invariants. -/
inductive Op where
  | createDevice (p : Payload)
  | updateDevice (i : Uuid) (p : Payload)
  | updatePosition (i : Uuid) (p : Payload)
  | deleteDevice (i : Uuid)
  | createLink (p : Payload)
  | updateLink (i : Uuid) (p : Payload)
  | deleteLink (i : Uuid)

/-- Resulting store of one API write request. -/
def applyOp (op : Op) (s : Store) : Store :=
  match op with
  | .createDevice p => (postDevice s p).2.2
  | .updateDevice i p => (patchDevice s i p).2.2
  | .updatePosition i p => (patchPosition s i p).2.2
  | .deleteDevice i => (deleteDevice s i).2
  | .createLink p => (postLink s p).2.2
  | .updateLink i p => (patchLink s i p).2.2
  | .deleteLink i => (deleteLink s i).2

/-- Referential integrity: every link endpoint references an existing device. -/
def refIntegrity (s : Store) : Prop :=
  ∀ l ∈ s.links,
    (∃ d ∈ s.devices, d.id = l.from_id) ∧ (∃ d ∈ s.devices, d.id = l.to_id)

/-- Canvas Controller selection state (TopologyCanvas.tsx
`selectedNodeId` / `selectedEdgeId`). -/
structure Selection where
  selectedNodeId : Option Uuid
  selectedEdgeId : Option Uuid
deriving DecidableEq

/-- `onSelectionChange` (TopologyCanvas.tsx):
`setSelectedNodeId(params.nodes?.[0]?.id ?? null);
setSelectedEdgeId(params.edges?.[0]?.id ?? null)`. -/
def onSelectionChange (nodes : List TopoNode) (edges : List TopoEdge) : Selection :=
  { selectedNodeId := nodes.head?.map TopoNode.id,
    selectedEdgeId := edges.head?.map TopoEdge.id }

/-- Drop leading characters satisfying `f`. -/
def dropWhileChars (f : Char → Bool) : List Char → List Char
  | [] => []
  | c :: rest => if f c then dropWhileChars f rest else c :: rest

/-- JavaScript `String.prototype.trim`: strip whitespace from both ends
(modelled structurally on the character list). -/
def trimStr (s : String) : String :=
  String.mk
    (dropWhileChars Char.isWhitespace
      ((dropWhileChars Char.isWhitespace s.data.reverse).reverse))

/-- `linkFrom` / `linkTo` select state: `none` models the empty string. -/
inductive LinkSubmit where
  | noSelection
  | sameEndpoints
  | request (p : Payload)
deriving DecidableEq

/-- `submitCreateLink` (TopologyCanvas.tsx): guard on missing endpoints,
local rejection of identical source/target, otherwise issue
`createLink({fromId, toId, label: trimmed-or-undefined, status:"up"})`. -/
def submitCreateLink (linkFrom linkTo : Option Uuid) (linkLabel : String) :
    LinkSubmit :=
  match linkFrom, linkTo with
  | none, _ => .noSelection
  | _, none => .noSelection
  | some f, some t =>
    if f = t then .sameEndpoints
    else
      .request ([("fromId", JVal.jid f), ("toId", JVal.jid t)] ++
        (if trimStr linkLabel ≠ "" then [("label", JVal.jstr (trimStr linkLabel))] else []) ++
        [("status", JVal.jstr "up")])

/-- `needle` is a prefix of `hay` (character lists). -/
def startsWithChars : List Char → List Char → Bool
  | [], _ => true
  | _ :: _, [] => false
  | a :: as, b :: bs => a == b && startsWithChars as bs

/-- `hay.includes(needle)` on character lists (JavaScript substring test). -/
def hasSubChars (needle : List Char) : List Char → Bool
  | [] => startsWithChars needle []
  | c :: rest => startsWithChars needle (c :: rest) || hasSubChars needle rest

/-- `hay.includes(q)` (JavaScript `String.prototype.includes`). -/
def strIncludes (hay q : String) : Bool := hasSubChars q.data hay.data

/-- `s.toLowerCase()`. -/
def lowerStr (s : String) : String := String.mk (s.data.map Char.toLower)

/-- Rendering of a device type back to its wire string. -/
def deviceTypeStr : DeviceType → String
  | .hub => "hub"
  | .switch => "switch"
  | .router => "router"
  | .ap => "ap"
  | .server => "server"

/-- Rendering of a uuid as the string the frontend sees (`n.id`). -/
def uuidStr (u : Uuid) : String := toString u

/-- The filter predicate of `filteredNodes` (TopologyCanvas.tsx): `q` matches
a node when the lowercased name, ip (empty when absent), type or identifier
contains it. -/
def matchesQuery (q : String) (n : TopoNode) : Bool :=
  strIncludes (lowerStr n.data.name) q ||
  strIncludes (lowerStr (n.data.ip.getD "")) q ||
  strIncludes (lowerStr (deviceTypeStr n.data.dtype)) q ||
  strIncludes (lowerStr (uuidStr n.id)) q

/-- `filteredNodes` (TopologyCanvas.tsx): trim + lowercase the query; an
empty query yields `[]`; otherwise filter the in-memory nodes. -/
def filteredNodes (nodes : List TopoNode) (query : String) : List TopoNode :=
  let q := lowerStr (trimStr query)
  if q = "" then []
  else nodes.filter (fun n => matchesQuery q n)

/-- Fixture: a hub device with id 0. -/
def exDev0 : DeviceRow :=
  { id := 0, name := "SW-CORE-01", dtype := .hub, ip := none, status := .up,
    x := 0, y := 0, created_at := 0 }

/-- Fixture: a switch device with id 1. -/
def exDev1 : DeviceRow :=
  { id := 1, name := "SW-EDGE-02", dtype := .switch, ip := some "10.0.1.2",
    status := .up, x := 3, y := 4, created_at := 1 }

/-- Fixture: a link 0 → 1 with absent (NULL) handles. -/
def exLink0 : LinkRow :=
  { id := 2, from_id := 0, to_id := 1, status := .up, label := none,
    from_handle := none, to_handle := none, created_at := 2 }

/-- Fixture: a link 1 → 0. -/
def exLink1 : LinkRow :=
  { id := 3, from_id := 1, to_id := 0, status := .warn, label := some "UPLINK",
    from_handle := none, to_handle := none, created_at := 3 }

/-- Fixture store: two devices, two links. -/
def exStore : Store := { devices := [exDev0, exDev1], links := [exLink0, exLink1], clock := 4 }

/-- Fixture node for the frontend claims. -/
def exNode0 : TopoNode := toNode exDev1

/-- Fixture edge for the frontend claims. -/
def exEdge0 : TopoEdge := toEdge exLink0

/-- The recognised keys of `deviceCreateSchema` (and of its `.partial()`). -/
def deviceCreateKeys : List String := ["name", "type", "ip", "status", "x", "y"]

/-- The recognised keys of `linkCreateSchema`. -/
def linkCreateKeys : List String :=
  ["fromId", "toId", "status", "label", "fromHandle", "toHandle"]

/-- The recognised keys of `linkUpdateSchema`. -/
def linkUpdateKeys : List String := ["status", "label", "fromHandle", "toHandle"]

/-- The recognised keys of `devicePositionSchema`. -/
def positionKeys : List String := ["x", "y"]

/-- Fixture payload: a minimal valid device creation. -/
def exCreatePayload : Payload := [("name", JVal.jstr "SW1"), ("type", JVal.jstr "switch")]

/-- Fixture payload: a status-only device update. -/
def exStatusPayload : Payload := [("status", JVal.jstr "down")]

/-- Parsed form of `exStatusPayload`. -/
def exStatusUpd : DeviceUpdateData :=
  { name := none, dtype := none, ip := none, status := some .down, x := none, y := none }

/-- Fixture: a self-link 1 → 1, untouched by deleting device 0. -/
def exLinkB : LinkRow :=
  { id := 5, from_id := 1, to_id := 1, status := .up, label := none,
    from_handle := none, to_handle := none, created_at := 5 }

/-- Fixture store for the cascade claim. -/
def exStoreB : Store := { devices := [exDev0, exDev1], links := [exLinkB], clock := 6 }

/-- `exStoreB` after deleting device 0. -/
def exStoreB2 : Store := { devices := [exDev1], links := [exLinkB], clock := 6 }

/-- Fixture: a link 0 → 1 with both handles present. -/
def exLinkH : LinkRow :=
  { id := 4, from_id := 0, to_id := 1, status := .up, label := none,
    from_handle := some "a", to_handle := some "b", created_at := 4 }

/-- Fixture store whose only link carries handles. -/
def exStoreH : Store := { devices := [exDev0, exDev1], links := [exLinkH], clock := 5 }

/-- Fixture payload duplicating `exLinkH` including both handles. -/
def exDupPayload : Payload :=
  [("fromId", JVal.jid 0), ("toId", JVal.jid 1),
   ("fromHandle", JVal.jstr "a"), ("toHandle", JVal.jstr "b")]

/-- Parsed form of `exDupPayload`. -/
def exDupData : LinkCreateData :=
  { fromId := 0, toId := 1, status := none, label := none,
    fromHandle := some "a", toHandle := some "b" }

/-- Fixture payload between the same endpoints with a fresh handle pair. -/
def exFreshPayload : Payload :=
  [("fromId", JVal.jid 0), ("toId", JVal.jid 1),
   ("fromHandle", JVal.jstr "c"), ("toHandle", JVal.jstr "b")]

/-- Parsed form of `exFreshPayload`. -/
def exFreshData : LinkCreateData :=
  { fromId := 0, toId := 1, status := none, label := none,
    fromHandle := some "c", toHandle := some "b" }

lemma getField_cons_ne (k key : String) (v : JVal) (p : Payload) (h : k ≠ key) :
    getField ((k, v) :: p) key = getField p key := by
  simp [getField, h]

lemma reqField_cons_ne {α : Type} (f : JVal → Option α) (k key : String)
    (v : JVal) (p : Payload) (h : k ≠ key) :
    reqField f ((k, v) :: p) key = reqField f p key := by
  simp [reqField, getField_cons_ne k key v p h]

lemma optField_cons_ne {α : Type} (f : JVal → Option α) (k key : String)
    (v : JVal) (p : Payload) (h : k ≠ key) :
    optField f ((k, v) :: p) key = optField f p key := by
  simp [optField, getField_cons_ne k key v p h]

lemma optField_of_absent {α : Type} (f : JVal → Option α) (p : Payload)
    (k : String) (h : getField p k = none) : optField f p k = some none := by
  simp [optField, h]

lemma optField_of_null {α : Type} (f : JVal → Option α) (p : Payload)
    (k : String) (hf : f JVal.jnull = none)
    (h : getField p k = some JVal.jnull) : optField f p k = none := by
  simp [optField, h, hf]

lemma parseDeviceCreate_inv (p : Payload) (d : DeviceCreateData)
    (h : parseDeviceCreate p = some d) :
    reqField strMin2V p "name" = some d.name ∧
    reqField asType p "type" = some d.dtype ∧
    optField asStr p "ip" = some d.ip ∧
    optField asStatus p "status" = some d.status ∧
    optField asNum p "x" = some d.x ∧
    optField asNum p "y" = some d.y := by
  simp only [parseDeviceCreate, bind, Option.bind_eq_some, Option.pure_def,
    Option.some.injEq] at h
  obtain ⟨nm, h1, ty, h2, ip, h3, st, h4, x, h5, y, h6, rfl⟩ := h
  exact ⟨h1, h2, h3, h4, h5, h6⟩

lemma parseDeviceUpdate_inv (p : Payload) (u : DeviceUpdateData)
    (h : parseDeviceUpdate p = some u) :
    optField strMin2V p "name" = some u.name ∧
    optField asType p "type" = some u.dtype ∧
    optField asStr p "ip" = some u.ip ∧
    optField asStatus p "status" = some u.status ∧
    optField asNum p "x" = some u.x ∧
    optField asNum p "y" = some u.y := by
  simp only [parseDeviceUpdate, bind, Option.bind_eq_some, Option.pure_def,
    Option.some.injEq] at h
  obtain ⟨nm, h1, ty, h2, ip, h3, st, h4, x, h5, y, h6, rfl⟩ := h
  exact ⟨h1, h2, h3, h4, h5, h6⟩

lemma parseLinkUpdate_inv (p : Payload) (u : LinkUpdateData)
    (h : parseLinkUpdate p = some u) :
    optField asStatus p "status" = some u.status ∧
    optField asStr p "label" = some u.label ∧
    optField asStr p "fromHandle" = some u.fromHandle ∧
    optField asStr p "toHandle" = some u.toHandle := by
  simp only [parseLinkUpdate, bind, Option.bind_eq_some, Option.pure_def,
    Option.some.injEq] at h
  obtain ⟨st, h1, lbl, h2, fh, h3, th, h4, rfl⟩ := h
  exact ⟨h1, h2, h3, h4⟩

lemma applyDeviceUpdate_id (u : DeviceUpdateData) (d : DeviceRow) :
    (applyDeviceUpdate u d).id = d.id := rfl

lemma applyDeviceUpdate_created (u : DeviceUpdateData) (d : DeviceRow) :
    (applyDeviceUpdate u d).created_at = d.created_at := rfl

lemma applyLinkUpdate_from (u : LinkUpdateData) (l : LinkRow) :
    (applyLinkUpdate u l).from_id = l.from_id := rfl

lemma applyLinkUpdate_to (u : LinkUpdateData) (l : LinkRow) :
    (applyLinkUpdate u l).to_id = l.to_id := rfl

lemma sameHandle_none_right (h : Option String) : sameHandle h none = false := by
  cases h <;> rfl

lemma sameHandle_true_iff (a b : Option String) :
    sameHandle a b = true ↔ ∃ v, a = some v ∧ b = some v := by
  cases a <;> cases b <;> simp [sameHandle]
  exact comm

lemma deviceExists_true_iff (s : Store) (i : Uuid) :
    deviceExists s i = true ↔ ∃ d ∈ s.devices, d.id = i := by
  simp [deviceExists, List.any_eq_true]

lemma refIntegrity_applyOp (op : Op) (s : Store) (h : refIntegrity s) :
    refIntegrity (applyOp op s) := by
  cases op with
  | createDevice p =>
    show refIntegrity (postDevice s p).2.2
    unfold postDevice
    split
    · exact h
    · intro l hl
      obtain ⟨⟨d1, hd1, hi1⟩, ⟨d2, hd2, hi2⟩⟩ := h l hl
      exact ⟨⟨d1, List.mem_append_left _ hd1, hi1⟩,
             ⟨d2, List.mem_append_left _ hd2, hi2⟩⟩
  | updateDevice i p =>
    show refIntegrity (patchDevice s i p).2.2
    unfold patchDevice
    split
    · exact h
    · split
      · exact h
      · split
        · exact h
        · intro l hl
          obtain ⟨⟨d1, hd1, hi1⟩, ⟨d2, hd2, hi2⟩⟩ := h l hl
          constructor
          · refine ⟨_, List.mem_map_of_mem _ hd1, ?_⟩
            split <;> simp [applyDeviceUpdate_id, hi1]
          · refine ⟨_, List.mem_map_of_mem _ hd2, ?_⟩
            split <;> simp [applyDeviceUpdate_id, hi2]
  | updatePosition i p =>
    show refIntegrity (patchPosition s i p).2.2
    unfold patchPosition
    split
    · exact h
    · split
      · exact h
      · intro l hl
        obtain ⟨⟨d1, hd1, hi1⟩, ⟨d2, hd2, hi2⟩⟩ := h l hl
        constructor
        · refine ⟨_, List.mem_map_of_mem _ hd1, ?_⟩
          split <;> simpa using hi1
        · refine ⟨_, List.mem_map_of_mem _ hd2, ?_⟩
          split <;> simpa using hi2
  | deleteDevice i =>
    show refIntegrity (deleteDevice s i).2
    unfold deleteDevice
    split
    · intro l hl
      obtain ⟨hl1, hl2⟩ := List.mem_filter.mp hl
      obtain ⟨⟨d1, hd1, hi1⟩, ⟨d2, hd2, hi2⟩⟩ := h l hl1
      have hfrom : l.from_id ≠ i := by intro he; simp [he] at hl2
      have hto : l.to_id ≠ i := by intro he; simp [he] at hl2
      refine ⟨⟨d1, List.mem_filter.mpr ⟨hd1, ?_⟩, hi1⟩,
              ⟨d2, List.mem_filter.mpr ⟨hd2, ?_⟩, hi2⟩⟩
      · simp [hi1, hfrom]
      · simp [hi2, hto]
    · exact h
  | createLink p =>
    show refIntegrity (postLink s p).2.2
    unfold postLink
    split
    · exact h
    · next d heq =>
      split
      · exact h
      · next hconf =>
        split
        · exact h
        · next hfk =>
          obtain ⟨hA, hB⟩ : deviceExists s d.fromId = true ∧ deviceExists s d.toId = true := by
            simpa using hfk
          obtain ⟨dA, hdA, hiA⟩ := (deviceExists_true_iff s d.fromId).mp hA
          obtain ⟨dB, hdB, hiB⟩ := (deviceExists_true_iff s d.toId).mp hB
          intro l hl
          rcases List.mem_append.mp hl with hold | hnew
          · obtain ⟨⟨d1, hd1, hi1⟩, ⟨d2, hd2, hi2⟩⟩ := h l hold
            exact ⟨⟨d1, hd1, hi1⟩, ⟨d2, hd2, hi2⟩⟩
          · have hle := List.mem_singleton.mp hnew
            subst hle
            exact ⟨⟨dA, hdA, hiA⟩, ⟨dB, hdB, hiB⟩⟩
  | updateLink i p =>
    show refIntegrity (patchLink s i p).2.2
    unfold patchLink
    split
    · exact h
    · split
      · exact h
      · split
        · exact h
        · intro l' hl'
          obtain ⟨l0, hl0, rfl⟩ := List.mem_map.mp hl'
          obtain ⟨⟨d1, hd1, hi1⟩, ⟨d2, hd2, hi2⟩⟩ := h l0 hl0
          constructor
          · exact ⟨d1, hd1, by split <;> simpa [applyLinkUpdate_from] using hi1⟩
          · exact ⟨d2, hd2, by split <;> simpa [applyLinkUpdate_to] using hi2⟩
  | deleteLink i =>
    show refIntegrity (deleteLink s i).2
    unfold deleteLink
    split
    · intro l hl
      exact h l (List.mem_filter.mp hl).1
    · exact h

/-- C1: for every valid Device-create payload that omits `status`, `x` and
`y`, `POST /devices` responds 201 and the persisted (and returned) row has
`status = "up"` and `x = y = 0`. -/
theorem postDevice_defaults (s : Store) (p : Payload) (d : DeviceCreateData)
    (h : parseDeviceCreate p = some d)
    (hs : getField p "status" = none) (hx : getField p "x" = none)
    (hy : getField p "y" = none) :
    (postDevice s p).1 = 201 ∧
    (postDevice s p).2.1.map DeviceRow.status = some Status.up ∧
    (postDevice s p).2.1.map DeviceRow.x = some 0 ∧
    (postDevice s p).2.1.map DeviceRow.y = some 0 ∧
    ∃ r, (postDevice s p).2.1 = some r ∧
      (postDevice s p).2.2.devices = s.devices ++ [r] := by
  obtain ⟨-, -, -, h4, h5, h6⟩ := parseDeviceCreate_inv p d h
  rw [optField_of_absent _ _ _ hs] at h4
  rw [optField_of_absent _ _ _ hx] at h5
  rw [optField_of_absent _ _ _ hy] at h6
  have hst : d.status = none := (Option.some.inj h4).symm
  have hxx : d.x = none := (Option.some.inj h5).symm
  have hyy : d.y = none := (Option.some.inj h6).symm
  refine ⟨by simp [postDevice, h], ?_, ?_, ?_, ?_⟩
  · simp [postDevice, h, hst]
  · simp [postDevice, h, hxx]
  · simp [postDevice, h, hyy]
  · simp only [postDevice, h]
    exact ⟨_, rfl, rfl⟩

/-- C1 witness: creating `{name:"SW1", type:"switch"}` on the fixture store. -/
theorem postDevice_defaults_witness :
    (postDevice exStore exCreatePayload).1 = 201 ∧
    (postDevice exStore exCreatePayload).2.1.map DeviceRow.status = some Status.up ∧
    (postDevice exStore exCreatePayload).2.1.map DeviceRow.x = some 0 ∧
    (postDevice exStore exCreatePayload).2.1.map DeviceRow.y = some 0 ∧
    ∃ r, (postDevice exStore exCreatePayload).2.1 = some r ∧
      (postDevice exStore exCreatePayload).2.2.devices = exStore.devices ++ [r] :=
  postDevice_defaults exStore exCreatePayload
    { name := "SW1", dtype := .switch, ip := none, status := none, x := none, y := none }
    rfl rfl rfl rfl

/-- C4: a successful `PATCH /devices/:id` returns row `applyDeviceUpdate u d`
in which exactly the recognised fields present in the payload changed:
absent fields (and always `id` and `created_at`) keep their old value,
present fields take the supplied value, and rows with a different id are
untouched. -/
theorem patchDevice_frame (s : Store) (i : Uuid) (p : Payload)
    (u : DeviceUpdateData) (d : DeviceRow)
    (hp : parseDeviceUpdate p = some u) (hne : u.isEmpty = false)
    (hd : findDevice s i = some d) :
    (patchDevice s i p).1 = 200 ∧
    (patchDevice s i p).2.1 = some (applyDeviceUpdate u d) ∧
    (applyDeviceUpdate u d).id = d.id ∧
    (applyDeviceUpdate u d).created_at = d.created_at ∧
    (u.name = none → (applyDeviceUpdate u d).name = d.name) ∧
    (∀ v, u.name = some v → (applyDeviceUpdate u d).name = v) ∧
    (u.dtype = none → (applyDeviceUpdate u d).dtype = d.dtype) ∧
    (∀ v, u.dtype = some v → (applyDeviceUpdate u d).dtype = v) ∧
    (u.ip = none → (applyDeviceUpdate u d).ip = d.ip) ∧
    (∀ v, u.ip = some v → (applyDeviceUpdate u d).ip = some v) ∧
    (u.status = none → (applyDeviceUpdate u d).status = d.status) ∧
    (∀ v, u.status = some v → (applyDeviceUpdate u d).status = v) ∧
    (u.x = none → (applyDeviceUpdate u d).x = d.x) ∧
    (∀ v, u.x = some v → (applyDeviceUpdate u d).x = v) ∧
    (u.y = none → (applyDeviceUpdate u d).y = d.y) ∧
    (∀ v, u.y = some v → (applyDeviceUpdate u d).y = v) ∧
    (∀ d0 ∈ s.devices, d0.id ≠ i → d0 ∈ (patchDevice s i p).2.2.devices) := by
  refine ⟨by simp [patchDevice, hp, hne, hd], by simp [patchDevice, hp, hne, hd],
    rfl, rfl, ?_, ?_, ?_, ?_, ?_, ?_, ?_, ?_, ?_, ?_, ?_, ?_, ?_⟩
  · intro hv; simp [applyDeviceUpdate, hv]
  · intro v hv; simp [applyDeviceUpdate, hv]
  · intro hv; simp [applyDeviceUpdate, hv]
  · intro v hv; simp [applyDeviceUpdate, hv]
  · intro hv; simp [applyDeviceUpdate, hv]
  · intro v hv; simp [applyDeviceUpdate, hv]
  · intro hv; simp [applyDeviceUpdate, hv]
  · intro v hv; simp [applyDeviceUpdate, hv]
  · intro hv; simp [applyDeviceUpdate, hv]
  · intro v hv; simp [applyDeviceUpdate, hv]
  · intro hv; simp [applyDeviceUpdate, hv]
  · intro v hv; simp [applyDeviceUpdate, hv]
  · intro d0 h0 hne0
    simp only [patchDevice, hp, hne, hd]
    have hm := List.mem_map_of_mem
      (fun d1 => if d1.id = i then applyDeviceUpdate u d1 else d1) h0
    simpa [if_neg hne0] using hm

/-- C4 witness: a status-only update of device 0 in the fixture store. -/
theorem patchDevice_frame_witness :
    (patchDevice exStore 0 exStatusPayload).1 = 200 ∧
    (patchDevice exStore 0 exStatusPayload).2.1 =
      some (applyDeviceUpdate exStatusUpd exDev0) ∧
    (applyDeviceUpdate exStatusUpd exDev0).name = exDev0.name ∧
    (applyDeviceUpdate exStatusUpd exDev0).status = Status.down ∧
    (applyDeviceUpdate exStatusUpd exDev0).id = exDev0.id :=
  have T := patchDevice_frame exStore 0 exStatusPayload exStatusUpd exDev0 rfl rfl rfl
  ⟨T.1, T.2.1, T.2.2.2.2.1 rfl, T.2.2.2.2.2.2.2.2.2.2.2.1 Status.down rfl, T.2.2.1⟩

/-- C3: a successful `DELETE /devices/:id` (204) leaves no link whose
`from_id` or `to_id` is the deleted id, and referential integrity (every
link endpoint references an existing device) is preserved by every API
write operation. -/
theorem deleteDevice_cascade_refIntegrity :
    (∀ (s : Store) (i : Uuid) (s2 : Store), deleteDevice s i = (204, s2) →
       ∀ l ∈ s2.links, l.from_id ≠ i ∧ l.to_id ≠ i) ∧
    (∀ (op : Op) (s : Store), refIntegrity s → refIntegrity (applyOp op s)) := by
  constructor
  · intro s i s2 hdel l hl
    unfold deleteDevice at hdel
    split at hdel
    · injection hdel with h1 h2
      subst h2
      obtain ⟨-, hl2⟩ := List.mem_filter.mp hl
      constructor
      · intro he; simp [he] at hl2
      · intro he; simp [he] at hl2
    · exfalso
      have h1 : (404 : Nat) = 204 := congrArg Prod.fst hdel
      exact absurd h1 (by decide)
  · exact fun op s h => refIntegrity_applyOp op s h

/-- C3 witness: deleting device 0 from the fixture stores. -/
theorem deleteDevice_cascade_refIntegrity_witness :
    (exLinkB.from_id ≠ 0 ∧ exLinkB.to_id ≠ 0) ∧
    refIntegrity (applyOp (Op.deleteDevice 0) exStore) :=
  ⟨deleteDevice_cascade_refIntegrity.1 exStoreB 0 exStoreB2 rfl exLinkB
      (by simp [exStoreB2]),
   deleteDevice_cascade_refIntegrity.2 (Op.deleteDevice 0) exStore
      (by unfold refIntegrity; decide)⟩

/-- C5: `GET /topology` yields exactly one node per device row and one edge
per link row (the listings are permutations of the tables), each edge's
`source`/`target` is the corresponding link's `from_id`/`to_id` in listing
order, and both listings are sorted by `created_at` ascending. -/
theorem getTopology_spec (s : Store) :
    (getTopology s).nodes.length = s.devices.length ∧
    (getTopology s).edges.length = s.links.length ∧
    (getTopology s).nodes.map TopoNode.id = (listDevices s).map DeviceRow.id ∧
    (getTopology s).edges.map (fun e => (e.source, e.target)) =
      (listLinks s).map (fun l => (l.from_id, l.to_id)) ∧
    List.Sorted devLE (listDevices s) ∧
    List.Sorted linkLE (listLinks s) ∧
    List.Perm (listDevices s) s.devices ∧
    List.Perm (listLinks s) s.links := by
  refine ⟨?_, ?_, ?_, ?_, ?_, ?_, ?_, ?_⟩
  · simp [getTopology, listDevices, (List.perm_insertionSort devLE s.devices).length_eq]
  · simp [getTopology, listLinks, (List.perm_insertionSort linkLE s.links).length_eq]
  · simp [getTopology, toNode, List.map_map, Function.comp]
  · simp [getTopology, toEdge, List.map_map, Function.comp]
  · exact List.sorted_insertionSort devLE s.devices
  · exact List.sorted_insertionSort linkLE s.links
  · exact List.perm_insertionSort devLE s.devices
  · exact List.perm_insertionSort linkLE s.links

/-- C2 counterexample: the fixture store already holds link 0 → 1 with both
handles absent; `POST /links {fromId:0, toId:1}` has exactly the same
`(from_id,to_id,from_handle,to_handle)` tuple, yet the unique index treats
the NULL handles as distinct, so the insert succeeds with 201 and a third
link row is created — not the 409/no-row the claim asserts. -/
theorem postLink_nullHandle_counterexample :
    (postLink exStore [("fromId", JVal.jid 0), ("toId", JVal.jid 1)]).1 = 201 ∧
    (postLink exStore [("fromId", JVal.jid 0), ("toId", JVal.jid 1)]).2.2.links.length = 3 := by
  constructor <;> rfl

/-- C2 amended: a Link-create payload duplicating the
`(from_id,to_id,from_handle,to_handle)` tuple of an existing link conflicts
(409, store unchanged) only when both handle components are present
(non-NULL); and a payload differing, as an optional value, in at least one
handle component from every existing link between the same two endpoints
succeeds with 201, adding exactly one row (NULL handles never collide). -/
theorem postLink_conflict_amended :
    (∀ (s : Store) (p : Payload) (d : LinkCreateData) (l : LinkRow),
       parseLinkCreate p = some d → l ∈ s.links →
       l.from_id = d.fromId → l.to_id = d.toId →
       l.from_handle = d.fromHandle → l.to_handle = d.toHandle →
       d.fromHandle.isSome = true → d.toHandle.isSome = true →
       postLink s p = (409, none, s)) ∧
    (∀ (s : Store) (p : Payload) (d : LinkCreateData),
       parseLinkCreate p = some d →
       (∀ l ∈ s.links, l.from_id = d.fromId → l.to_id = d.toId →
          ¬(l.from_handle = d.fromHandle ∧ l.to_handle = d.toHandle)) →
       deviceExists s d.fromId = true → deviceExists s d.toId = true →
       (postLink s p).1 = 201 ∧
       (postLink s p).2.2.links.length = s.links.length + 1) := by
  constructor
  · intro s p d l hp hl hfrom hto hfh hth hfs hts
    obtain ⟨a, ha⟩ := Option.isSome_iff_exists.mp hfs
    obtain ⟨b, hb⟩ := Option.isSome_iff_exists.mp hts
    have hc : (s.links.any fun l0 => tupleConflict l0 d) = true := by
      refine List.any_eq_true.mpr ⟨l, hl, ?_⟩
      simp [tupleConflict, hfrom, hto, hfh, hth, ha, hb, sameHandle]
    simp [postLink, hp, hc]
  · intro s p d hp hno hA hB
    have hc : (s.links.any fun l0 => tupleConflict l0 d) = false := by
      rw [List.any_eq_false]
      intro l hl
      cases htc : tupleConflict l d
      · simp
      · exfalso
        have := htc
        simp only [tupleConflict, Bool.and_eq_true, beq_iff_eq,
          sameHandle_true_iff] at this
        obtain ⟨⟨⟨hfrom, hto⟩, v1, hv1, hv2⟩, v2, hw1, hw2⟩ := this
        exact hno l hl hfrom hto ⟨hv1.trans hv2.symm, hw1.trans hw2.symm⟩
    have hfk : (deviceExists s d.fromId && deviceExists s d.toId) = true := by
      simp [hA, hB]
    constructor
    · simp [postLink, hp, hc, hfk]
    · simp [postLink, hp, hc, hfk]

/-- C2 witness: on the handle-carrying fixture store, the exact duplicate
(handles "a","b") is refused with 409, while the fresh pair ("c","b")
between the same endpoints is inserted. -/
theorem postLink_conflict_amended_witness :
    postLink exStoreH exDupPayload = (409, none, exStoreH) ∧
    (postLink exStoreH exFreshPayload).1 = 201 ∧
    (postLink exStoreH exFreshPayload).2.2.links.length = exStoreH.links.length + 1 :=
  ⟨postLink_conflict_amended.1 exStoreH exDupPayload exDupData exLinkH
      rfl (by simp [exStoreH]) rfl rfl rfl rfl rfl rfl,
   postLink_conflict_amended.2 exStoreH exFreshPayload exFreshData
      rfl (by decide) rfl rfl⟩

/-- C6 counterexample: `devicePositionSchema` is a plain `z.object`, which
strips unknown keys instead of rejecting them, so a position payload
carrying the extra field `foo` still parses successfully — it is not
rejected as the claim asserts. -/
theorem positionValidator_counterexample :
    parseDevicePosition
      [("x", JVal.jnum 1), ("y", JVal.jnum 2), ("foo", JVal.jstr "bar")] =
      some (1, 2) := rfl

/-- C6 amended: every validator, including the position one, silently
ignores unknown/extra fields; the position validator differs only in that
its two fields `x` and `y` are required (a payload missing either is
rejected). -/
theorem validators_unknown_fields_amended :
    (∀ (p : Payload) (k : String) (v : JVal), k ∉ positionKeys →
       parseDevicePosition ((k, v) :: p) = parseDevicePosition p) ∧
    (∀ p : Payload, getField p "x" = none → parseDevicePosition p = none) ∧
    (∀ p : Payload, getField p "y" = none → parseDevicePosition p = none) ∧
    (∀ (p : Payload) (k : String) (v : JVal), k ∉ deviceCreateKeys →
       parseDeviceCreate ((k, v) :: p) = parseDeviceCreate p) ∧
    (∀ (p : Payload) (k : String) (v : JVal), k ∉ deviceCreateKeys →
       parseDeviceUpdate ((k, v) :: p) = parseDeviceUpdate p) ∧
    (∀ (p : Payload) (k : String) (v : JVal), k ∉ linkCreateKeys →
       parseLinkCreate ((k, v) :: p) = parseLinkCreate p) ∧
    (∀ (p : Payload) (k : String) (v : JVal), k ∉ linkUpdateKeys →
       parseLinkUpdate ((k, v) :: p) = parseLinkUpdate p) := by
  refine ⟨?_, ?_, ?_, ?_, ?_, ?_, ?_⟩
  · intro p k v hk
    simp only [positionKeys, List.mem_cons, List.not_mem_nil, or_false] at hk
    push_neg at hk
    obtain ⟨h1, h2⟩ := hk
    unfold parseDevicePosition
    rw [reqField_cons_ne _ _ _ _ _ h1, reqField_cons_ne _ _ _ _ _ h2]
  · intro p h
    simp [parseDevicePosition, reqField, h]
  · intro p h
    simp [parseDevicePosition, reqField, h]
  · intro p k v hk
    simp only [deviceCreateKeys, List.mem_cons, List.not_mem_nil, or_false] at hk
    push_neg at hk
    obtain ⟨h1, h2, h3, h4, h5, h6⟩ := hk
    unfold parseDeviceCreate
    rw [reqField_cons_ne _ _ _ _ _ h1, reqField_cons_ne _ _ _ _ _ h2,
      optField_cons_ne _ _ _ _ _ h3, optField_cons_ne _ _ _ _ _ h4,
      optField_cons_ne _ _ _ _ _ h5, optField_cons_ne _ _ _ _ _ h6]
  · intro p k v hk
    simp only [deviceCreateKeys, List.mem_cons, List.not_mem_nil, or_false] at hk
    push_neg at hk
    obtain ⟨h1, h2, h3, h4, h5, h6⟩ := hk
    unfold parseDeviceUpdate
    rw [optField_cons_ne _ _ _ _ _ h1, optField_cons_ne _ _ _ _ _ h2,
      optField_cons_ne _ _ _ _ _ h3, optField_cons_ne _ _ _ _ _ h4,
      optField_cons_ne _ _ _ _ _ h5, optField_cons_ne _ _ _ _ _ h6]
  · intro p k v hk
    simp only [linkCreateKeys, List.mem_cons, List.not_mem_nil, or_false] at hk
    push_neg at hk
    obtain ⟨h1, h2, h3, h4, h5, h6⟩ := hk
    unfold parseLinkCreate
    rw [reqField_cons_ne _ _ _ _ _ h1, reqField_cons_ne _ _ _ _ _ h2,
      optField_cons_ne _ _ _ _ _ h3, optField_cons_ne _ _ _ _ _ h4,
      optField_cons_ne _ _ _ _ _ h5, optField_cons_ne _ _ _ _ _ h6]
  · intro p k v hk
    simp only [linkUpdateKeys, List.mem_cons, List.not_mem_nil, or_false] at hk
    push_neg at hk
    obtain ⟨h1, h2, h3, h4⟩ := hk
    unfold parseLinkUpdate
    rw [optField_cons_ne _ _ _ _ _ h1, optField_cons_ne _ _ _ _ _ h2,
      optField_cons_ne _ _ _ _ _ h3, optField_cons_ne _ _ _ _ _ h4]

/-- C6 witness: an unknown key leaves the position parse unchanged, and a
payload missing `x` is rejected. -/
theorem validators_unknown_fields_amended_witness :
    parseDevicePosition
        (("foo", JVal.jstr "bar") :: [("x", JVal.jnum 1), ("y", JVal.jnum 2)]) =
      parseDevicePosition [("x", JVal.jnum 1), ("y", JVal.jnum 2)] ∧
    parseDevicePosition [("y", JVal.jnum 2)] = none :=
  ⟨validators_unknown_fields_amended.1 [("x", JVal.jnum 1), ("y", JVal.jnum 2)]
      "foo" (JVal.jstr "bar") (by decide),
   validators_unknown_fields_amended.2.1 [("y", JVal.jnum 2)] rfl⟩

/-- C7: for any device in the store, `POST /links` accepts a self-link on
that device (201, row persisted with both endpoints equal); the frontend's
`submitCreateLink` rejects identical source and target locally, and only
ever issues a request when the two selected endpoints are distinct. -/
theorem selfLink_policy :
    (∀ (s : Store) (d : DeviceRow), d ∈ s.devices →
       (postLink s [("fromId", JVal.jid d.id), ("toId", JVal.jid d.id)]).1 = 201 ∧
       ∃ r : LinkRow,
         (postLink s [("fromId", JVal.jid d.id), ("toId", JVal.jid d.id)]).2.1 = some r ∧
         r.from_id = d.id ∧ r.to_id = d.id ∧
         r ∈ (postLink s [("fromId", JVal.jid d.id), ("toId", JVal.jid d.id)]).2.2.links) ∧
    (∀ (f : Uuid) (lbl : String),
       submitCreateLink (some f) (some f) lbl = LinkSubmit.sameEndpoints) ∧
    (∀ (a b : Option Uuid) (lbl : String) (q : Payload),
       submitCreateLink a b lbl = LinkSubmit.request q →
       ∃ f t, a = some f ∧ b = some t ∧ f ≠ t) := by
  refine ⟨?_, ?_, ?_⟩
  · intro s d hd
    have hp : parseLinkCreate [("fromId", JVal.jid d.id), ("toId", JVal.jid d.id)] =
        some { fromId := d.id, toId := d.id, status := none, label := none,
               fromHandle := none, toHandle := none } := rfl
    have hc : (s.links.any fun l0 => tupleConflict l0
        { fromId := d.id, toId := d.id, status := none, label := none,
          fromHandle := none, toHandle := none }) = false := by
      rw [List.any_eq_false]
      intro l hl
      simp [tupleConflict, sameHandle_none_right]
    have hA : deviceExists s d.id = true := (deviceExists_true_iff s d.id).mpr ⟨d, hd, rfl⟩
    exact ⟨by simp [postLink, hp, hc, hA],
      ⟨{ id := s.clock, from_id := d.id, to_id := d.id, status := Status.up,
         label := none, from_handle := none, to_handle := none, created_at := s.clock },
       by simp [postLink, hp, hc, hA], rfl, rfl, by simp [postLink, hp, hc, hA]⟩⟩
  · intro f lbl
    simp [submitCreateLink]
  · intro a b lbl q h
    cases a with
    | none => simp [submitCreateLink] at h
    | some f =>
      cases b with
      | none => simp [submitCreateLink] at h
      | some t =>
        by_cases hft : f = t
        · simp [submitCreateLink, hft] at h
        · exact ⟨f, t, rfl, rfl, hft⟩

/-- C7 witness: a self-link on device 0 of the fixture store is accepted by
the server, while the frontend refuses the matching selection. -/
theorem selfLink_policy_witness :
    ((postLink exStore [("fromId", JVal.jid 0), ("toId", JVal.jid 0)]).1 = 201 ∧
     ∃ r : LinkRow,
       (postLink exStore [("fromId", JVal.jid 0), ("toId", JVal.jid 0)]).2.1 = some r ∧
       r.from_id = 0 ∧ r.to_id = 0 ∧
       r ∈ (postLink exStore [("fromId", JVal.jid 0), ("toId", JVal.jid 0)]).2.2.links) ∧
    submitCreateLink (some 0) (some 0) "UPLINK" = LinkSubmit.sameEndpoints := by
  constructor
  · have := selfLink_policy.1 exStore exDev0 (by simp [exStore])
    simpa [exDev0] using this
  · exact selfLink_policy.2.1 0 "UPLINK"

/-- C8 counterexample: when the canvas reports one node and one edge in the
same selection-change event, `onSelectionChange` records BOTH as selected —
the node does not clear the edge, so the three states are not mutually
exclusive as the claim asserts. -/
theorem selection_counterexample :
    (onSelectionChange [exNode0] [exEdge0]).selectedNodeId = some 1 ∧
    (onSelectionChange [exNode0] [exEdge0]).selectedEdgeId = some 2 :=
  ⟨rfl, rfl⟩

/-- C8 amended: after a selection-change event the node component is the id
of the first reported node (`none` when none is reported) and the edge
component is the id of the first reported edge; consequently, whenever the
canvas reports at most one kind of element, the three states
Nothing/Node/Edge-selected are mutually exclusive — but an event reporting
both kinds records both simultaneously. -/
theorem selection_amended :
    (∀ (n : TopoNode) (ns : List TopoNode) (es : List TopoEdge),
       (onSelectionChange (n :: ns) es).selectedNodeId = some n.id) ∧
    (∀ (e : TopoEdge) (ns : List TopoNode) (es : List TopoEdge),
       (onSelectionChange ns (e :: es)).selectedEdgeId = some e.id) ∧
    (∀ ns : List TopoNode, (onSelectionChange ns []).selectedEdgeId = none) ∧
    (∀ es : List TopoEdge, (onSelectionChange [] es).selectedNodeId = none) ∧
    (∀ (ns : List TopoNode) (es : List TopoEdge), ns = [] ∨ es = [] →
       ¬((onSelectionChange ns es).selectedNodeId.isSome = true ∧
         (onSelectionChange ns es).selectedEdgeId.isSome = true)) := by
  refine ⟨?_, ?_, ?_, ?_, ?_⟩
  · intro n ns es; rfl
  · intro e ns es; rfl
  · intro ns; rfl
  · intro es; rfl
  · intro ns es h
    rcases h with rfl | rfl
    · simp [onSelectionChange]
    · simp [onSelectionChange]

/-- C8 witness: an edge-only selection event leaves no node selected. -/
theorem selection_amended_witness :
    ¬((onSelectionChange [] [exEdge0]).selectedNodeId.isSome = true ∧
      (onSelectionChange [] [exEdge0]).selectedEdgeId.isSome = true) :=
  selection_amended.2.2.2.2 [] [exEdge0] (Or.inl rfl)

lemma lowerStr_empty : lowerStr "" = "" := rfl

lemma lowerStr_eq_empty (s : String) : lowerStr s = "" ↔ s = "" := by
  cases s with
  | mk l =>
    cases l with
    | nil => simp [lowerStr]
    | cons c cs =>
      constructor
      · intro h
        exact absurd (congrArg String.data h) (by simp [lowerStr])
      · intro h
        exact absurd (congrArg String.data h) (by simp)

/-- C9: the search filter returns the empty list whenever the trimmed query
is empty, and otherwise returns exactly the in-memory nodes whose
lowercased name, ip, type or identifier contains the trimmed lowercased
query as a substring. -/
theorem filteredNodes_spec (nodes : List TopoNode) (query : String) (n : TopoNode) :
    (trimStr query = "" → filteredNodes nodes query = []) ∧
    (n ∈ filteredNodes nodes query ↔
      trimStr query ≠ "" ∧ n ∈ nodes ∧ matchesQuery (lowerStr (trimStr query)) n = true) := by
  by_cases hq : lowerStr (trimStr query) = ""
  · have hq' : trimStr query = "" := (lowerStr_eq_empty _).mp hq
    constructor
    · intro _; simp [filteredNodes, hq]
    · simp [filteredNodes, hq, hq', lowerStr_empty]
  · have hq' : ¬trimStr query = "" := fun h => hq (by simp [h, lowerStr])
    constructor
    · intro h; exact absurd h hq'
    · simp [filteredNodes, hq, hq', List.mem_filter]

/-- C9 witness: the query "sw" finds the fixture switch, and a whitespace
query yields the empty result. -/
theorem filteredNodes_spec_witness :
    exNode0 ∈ filteredNodes [exNode0] "sw" ∧
    filteredNodes [exNode0] "  " = [] :=
  ⟨(filteredNodes_spec [exNode0] "sw" exNode0).2.mpr
      ⟨by decide, by simp, by decide⟩,
   (filteredNodes_spec [exNode0] "  " exNode0).1 (by decide)⟩

/-- C10: a Device-update or Link-update payload carrying `null` in any
recognised field fails validation, and consequently the nullable text
fields (`ip` on devices; `label`, `from_handle`, `to_handle` on links) can
be replaced by a new string through partial update but never cleared back
to NULL through the API once set. -/
theorem null_never_clears :
    (∀ (p : Payload) (k : String), k ∈ deviceCreateKeys →
       getField p k = some JVal.jnull → parseDeviceUpdate p = none) ∧
    (∀ (p : Payload) (k : String), k ∈ linkUpdateKeys →
       getField p k = some JVal.jnull → parseLinkUpdate p = none) ∧
    (∀ (u : DeviceUpdateData) (d : DeviceRow) (v : String),
       u.ip = some v → (applyDeviceUpdate u d).ip = some v) ∧
    (∀ (u : DeviceUpdateData) (d : DeviceRow),
       d.ip.isSome = true → (applyDeviceUpdate u d).ip.isSome = true) ∧
    (∀ (u : LinkUpdateData) (l : LinkRow) (v : String),
       u.label = some v → (applyLinkUpdate u l).label = some v) ∧
    (∀ (u : LinkUpdateData) (l : LinkRow),
       l.label.isSome = true → (applyLinkUpdate u l).label.isSome = true) ∧
    (∀ (u : LinkUpdateData) (l : LinkRow),
       l.from_handle.isSome = true → (applyLinkUpdate u l).from_handle.isSome = true) ∧
    (∀ (u : LinkUpdateData) (l : LinkRow),
       l.to_handle.isSome = true → (applyLinkUpdate u l).to_handle.isSome = true) := by
  refine ⟨?_, ?_, ?_, ?_, ?_, ?_, ?_, ?_⟩
  · intro p k hk hnull
    cases hparse : parseDeviceUpdate p with
    | none => rfl
    | some u =>
      exfalso
      obtain ⟨h1, h2, h3, h4, h5, h6⟩ := parseDeviceUpdate_inv p u hparse
      simp only [deviceCreateKeys, List.mem_cons, List.not_mem_nil, or_false] at hk
      rcases hk with rfl | rfl | rfl | rfl | rfl | rfl
      · rw [optField_of_null strMin2V p _ rfl hnull] at h1; exact Option.noConfusion h1
      · rw [optField_of_null asType p _ rfl hnull] at h2; exact Option.noConfusion h2
      · rw [optField_of_null asStr p _ rfl hnull] at h3; exact Option.noConfusion h3
      · rw [optField_of_null asStatus p _ rfl hnull] at h4; exact Option.noConfusion h4
      · rw [optField_of_null asNum p _ rfl hnull] at h5; exact Option.noConfusion h5
      · rw [optField_of_null asNum p _ rfl hnull] at h6; exact Option.noConfusion h6
  · intro p k hk hnull
    cases hparse : parseLinkUpdate p with
    | none => rfl
    | some u =>
      exfalso
      obtain ⟨h1, h2, h3, h4⟩ := parseLinkUpdate_inv p u hparse
      simp only [linkUpdateKeys, List.mem_cons, List.not_mem_nil, or_false] at hk
      rcases hk with rfl | rfl | rfl | rfl
      · rw [optField_of_null asStatus p _ rfl hnull] at h1; exact Option.noConfusion h1
      · rw [optField_of_null asStr p _ rfl hnull] at h2; exact Option.noConfusion h2
      · rw [optField_of_null asStr p _ rfl hnull] at h3; exact Option.noConfusion h3
      · rw [optField_of_null asStr p _ rfl hnull] at h4; exact Option.noConfusion h4
  · intro u d v h; simp [applyDeviceUpdate, h]
  · intro u d h
    cases hu : u.ip with
    | none => simpa [applyDeviceUpdate, hu] using h
    | some v => simp [applyDeviceUpdate, hu]
  · intro u l v h; simp [applyLinkUpdate, h]
  · intro u l h
    cases hu : u.label with
    | none => simpa [applyLinkUpdate, hu] using h
    | some v => simp [applyLinkUpdate, hu]
  · intro u l h
    cases hu : u.fromHandle with
    | none => simpa [applyLinkUpdate, hu] using h
    | some v => simp [applyLinkUpdate, hu]
  · intro u l h
    cases hu : u.toHandle with
    | none => simpa [applyLinkUpdate, hu] using h
    | some v => simp [applyLinkUpdate, hu]

/-- C10 witness: `{ip: null}` fails device-update validation, `{label: null}`
fails link-update validation, and any update of the fixture device with a
set ip keeps it non-NULL. -/
theorem null_never_clears_witness :
    parseDeviceUpdate [("ip", JVal.jnull)] = none ∧
    parseLinkUpdate [("label", JVal.jnull)] = none ∧
    (applyDeviceUpdate exStatusUpd exDev1).ip.isSome = true :=
  ⟨null_never_clears.1 [("ip", JVal.jnull)] "ip" (by decide) rfl,
   null_never_clears.2.1 [("label", JVal.jnull)] "label" (by decide) rfl,
   null_never_clears.2.2.2.1 exStatusUpd exDev1 rfl⟩

end MapaEquip
